import Mathlib

/-!
Shallow embedding of the vehicle-tracking composable of the vue-leaflet
demo (src/composables/useVehicleTracking.ts together with the icon factory
in src/layers/dvp-layers.ts).

Modelling conventions:
* Coordinates, speeds and headings are JavaScript numbers used only in
  equality tests by the reconciler; they are embedded as `Int`
  (`speed`/`heading` may be `null`, hence `Option Int`).
* A Leaflet marker is represented by the observable attributes the code
  writes through its handle: its position, its current icon, its bound
  tooltip text and its current popup content.
* `makeVehicleIcon` builds a DivIcon whose rendering is fully determined
  by the heading and the colour; it is embedded as the pair of those two
  inputs.  `makeVehiclePopup` builds an HTML string fully determined by
  the vehicleId, time, speed and heading of a position; it is embedded as
  the record of those four inputs.
* The JavaScript `Map` registry (insertion ordered, `set` replaces in
  place, iteration in insertion order) is an association list; the layer
  group is the list of the ids of the markers it contains, in insertion
  order.
* Asynchronous fetches are modelled by passing the outcome as a
  parameter: `none` stands for a network failure / thrown exception or a
  non-ok HTTP response (both take the same early-return path in the
  code), `some data` for a successful JSON payload.  The nullable map
  handle captured by `const map = getMap()` is a `Bool` parameter.
* Every observable Leaflet mutation performed during a call is also
  returned as a list of `Op` values, in execution order, so that claims
  about "zero calls" can be stated.
-/

namespace VehicleTracking

/-- One backend position report (interface VehiclePosition). -/
structure VehiclePosition where
  vehicleId : String
  lat : Int
  lng : Int
  speed : Option Int
  heading : Option Int
  time : String
deriving DecidableEq, Repr

/-- One registered-vehicle reference record (interface RegisteredVehicle). -/
structure RegisteredVehicle where
  id : Int
  vehicleId : String
  name : String
  type : Option String
  description : Option String
  createdAt : String
deriving DecidableEq, Repr

/-- The two inputs that fully determine the DivIcon built by
makeVehicleIcon in src/layers/dvp-layers.ts. -/
structure VehicleIcon where
  heading : Int
  color : String
deriving DecidableEq, Repr

/-- makeVehicleIcon(heading, color) of src/layers/dvp-layers.ts. -/
def makeVehicleIcon (heading : Int) (color : String) : VehicleIcon :=
  { heading := heading, color := color }

/-- The four inputs that fully determine the popup HTML built by
makeVehiclePopup in useVehicleTracking.ts. -/
structure PopupContent where
  vehicleId : String
  time : String
  speed : Option Int
  heading : Option Int
deriving DecidableEq, Repr

/-- makeVehiclePopup(v) of useVehicleTracking.ts. -/
def makeVehiclePopup (v : VehiclePosition) : PopupContent :=
  { vehicleId := v.vehicleId, time := v.time, speed := v.speed, heading := v.heading }

/-- Observable state of one Leaflet marker handle. -/
structure Marker where
  latlng : Int × Int
  icon : VehicleIcon
  tooltip : String
  popup : PopupContent
deriving DecidableEq, Repr

/-- L.marker([v.lat, v.lng], { icon }) followed by bindTooltip and
bindPopup, as in the new-vehicle branch of refresh (the click handler it
also installs calls selectVehicle with this same vehicleId). -/
def createMarker (v : VehiclePosition) (heading : Int) (color : String) : Marker :=
  { latlng := (v.lat, v.lng)
    icon := makeVehicleIcon heading color
    tooltip := v.vehicleId
    popup := makeVehiclePopup v }

/-- interface MarkerEntry of useVehicleTracking.ts: the marker handle plus
the last rendered heading / speed / color. -/
structure MarkerEntry where
  marker : Marker
  heading : Int
  speed : Option Int
  color : String
deriving DecidableEq, Repr

/-- The markerMap registry: vehicleId to MarkerEntry, insertion ordered. -/
abbrev Registry := List (String × MarkerEntry)

/-- Map.get semantics on the association list. -/
def lookupEntry : Registry → String → Option MarkerEntry
  | [], _ => none
  | (k, e) :: rest, vid => if k = vid then some e else lookupEntry rest vid

/-- Map.set semantics: replace in place when the key is present, append
otherwise. -/
def setEntry : Registry → String → MarkerEntry → Registry
  | [], vid, e => [(vid, e)]
  | (k, e0) :: rest, vid, e =>
      if k = vid then (vid, e) :: rest else (k, e0) :: setEntry rest vid e

/-- One observable Leaflet mutation performed by the composable. -/
inductive Op where
  | setLatLng (vehicleId : String) (latlng : Int × Int)
  | setIcon (vehicleId : String) (icon : VehicleIcon)
  | setPopupContent (vehicleId : String) (popup : PopupContent)
  | addMarker (vehicleId : String)
  | removeMarker (vehicleId : String)
  | removeTrackLine
  | addTrackLine (points : List (Int × Int))
deriving DecidableEq, Repr

/-- The track polyline object: its vertices and whether it is currently
attached to the map (remove() detaches it without clearing the variable). -/
structure TrackPolyline where
  points : List (Int × Int)
  onMap : Bool
deriving DecidableEq, Repr

/-- The state owned by useVehicleTracking: the four exposed refs, the
marker registry, the layer group contents, whether the layer group is
attached to the map, the track polyline variable and the poll timer. -/
structure TrackingState where
  vehicles : List VehiclePosition
  registeredVehicles : List RegisteredVehicle
  selectedVehicleId : Option String
  visible : Bool
  markerMap : Registry
  markerLayer : List String
  mapHasLayer : Bool
  trackPolyline : Option TrackPolyline
  timerActive : Bool
deriving DecidableEq, Repr

/-- Result of one reconciliation stage: the registry, the layer-group
contents, and the Leaflet mutations performed, in order. -/
structure ReconcileResult where
  reg : Registry
  layer : List String
  ops : List Op
deriving DecidableEq, Repr

/-- color = knownIds.has(v.vehicleId) ? accent : neutral (refresh, line 63). -/
def vehicleColor (knownIds : List String) (vehicleId : String) : String :=
  if vehicleId ∈ knownIds then "#E65100" else "#757575"

/-- The existing-entry branch of refresh (lines 67 to 86): conditional
setLatLng, conditional setIcon with cached heading/color update,
conditional setPopupContent with cached speed update.  The three change
flags are computed from the entry before any field is written, exactly as
in the source. -/
def updateEntry (v : VehiclePosition) (heading : Int) (color : String) (e : MarkerEntry) :
    MarkerEntry × List Op :=
  let m1 :=
    if e.marker.latlng.1 ≠ v.lat ∨ e.marker.latlng.2 ≠ v.lng then
      { e.marker with latlng := (v.lat, v.lng) }
    else e.marker
  let posOps : List Op :=
    if e.marker.latlng.1 ≠ v.lat ∨ e.marker.latlng.2 ≠ v.lng then
      [Op.setLatLng v.vehicleId (v.lat, v.lng)]
    else []
  let m2 :=
    if e.heading ≠ heading ∨ e.color ≠ color then
      { m1 with icon := makeVehicleIcon heading color }
    else m1
  let iconOps : List Op :=
    if e.heading ≠ heading ∨ e.color ≠ color then
      [Op.setIcon v.vehicleId (makeVehicleIcon heading color)]
    else []
  let m3 :=
    if e.heading ≠ heading ∨ e.speed ≠ v.speed then
      { m2 with popup := makeVehiclePopup v }
    else m2
  let popupOps : List Op :=
    if e.heading ≠ heading ∨ e.speed ≠ v.speed then
      [Op.setPopupContent v.vehicleId (makeVehiclePopup v)]
    else []
  let newHeading := if e.heading ≠ heading ∨ e.color ≠ color then heading else e.heading
  let newColor := if e.heading ≠ heading ∨ e.color ≠ color then color else e.color
  let newSpeed := if e.heading ≠ heading ∨ e.speed ≠ v.speed then v.speed else e.speed
  ({ marker := m3, heading := newHeading, speed := newSpeed, color := newColor },
   posOps ++ iconOps ++ popupOps)

/-- The body of the for-loop of refresh for one position (lines 61 to 98):
update the existing entry in place, or create the marker, register it and
add it to the layer group. -/
def processVehicle (knownIds : List String) (v : VehiclePosition)
    (reg : Registry) (layer : List String) : ReconcileResult :=
  let color := vehicleColor knownIds v.vehicleId
  let heading := v.heading.getD 0
  match lookupEntry reg v.vehicleId with
  | some e =>
      let upd := updateEntry v heading color e
      { reg := setEntry reg v.vehicleId upd.1, layer := layer, ops := upd.2 }
  | none =>
      let m := createMarker v heading color
      { reg := reg ++ [(v.vehicleId, { marker := m, heading := heading, speed := v.speed, color := color })]
        layer := layer ++ [v.vehicleId]
        ops := [Op.addMarker v.vehicleId] }

/-- The whole for-loop of refresh over the snapshot, in order. -/
def processAll (knownIds : List String) :
    List VehiclePosition → Registry → List String → ReconcileResult
  | [], reg, layer => { reg := reg, layer := layer, ops := [] }
  | v :: rest, reg, layer =>
      let r1 := processVehicle knownIds v reg layer
      let r2 := processAll knownIds rest r1.reg r1.layer
      { reg := r2.reg, layer := r2.layer, ops := r1.ops ++ r2.ops }

/-- The removal loop of refresh (lines 102 to 107): iterate the registry
in insertion order and drop every entry whose id the snapshot did not
contain, detaching its marker from the layer group. -/
def removeStale (seenIds : List String) : Registry → List String → ReconcileResult
  | [], layer => { reg := [], layer := layer, ops := [] }
  | (k, e) :: rest, layer =>
      if k ∈ seenIds then
        let r := removeStale seenIds rest layer
        { reg := (k, e) :: r.reg, layer := r.layer, ops := r.ops }
      else
        let r := removeStale seenIds rest (layer.erase k)
        { reg := r.reg, layer := r.layer, ops := Op.removeMarker k :: r.ops }

/-- The visible branch of refresh (lines 58 to 109): diff the snapshot
against the registry, drop stale entries, and make sure the layer group
is attached to the map. -/
def reconcile (data : List VehiclePosition) (s : TrackingState) :
    TrackingState × List Op :=
  let knownIds := s.registeredVehicles.map (fun r => r.vehicleId)
  let seenIds := data.map (fun v => v.vehicleId)
  let afterAdd := processAll knownIds data s.markerMap s.markerLayer
  let afterRemove := removeStale seenIds afterAdd.reg afterAdd.layer
  ({ s with markerMap := afterRemove.reg
            markerLayer := afterRemove.layer
            mapHasLayer := true },
   afterAdd.ops ++ afterRemove.ops)

/-- refresh() of useVehicleTracking.ts.  `mapPresent` is the map handle
captured at entry (`const map = getMap(); if (!map) return`);
`fetchResult` is the outcome of the snapshot fetch awaited inside the
try block (`none` covers both a thrown network error and !res.ok).  On
success the snapshot is stored in `vehicles` before the visibility check,
and only then reconciled. -/
def refresh (mapPresent : Bool) (fetchResult : Option (List VehiclePosition))
    (s : TrackingState) : TrackingState × List Op :=
  if mapPresent = false then (s, [])
  else
    match fetchResult with
    | none => (s, [])
    | some data =>
        let s1 : TrackingState := { s with vehicles := data }
        if s1.visible = false then (s1, []) else reconcile data s1

/-- selectVehicle(vehicleId) of useVehicleTracking.ts: store the
selection and remove the previous track line before the history fetch;
draw a new polyline only when the fetch succeeds with at least two
points. -/
def selectVehicle (mapPresent : Bool) (fetchResult : Option (List VehiclePosition))
    (vehicleId : String) (s : TrackingState) : TrackingState × List Op :=
  if mapPresent = false then (s, [])
  else
    let removeOps : List Op :=
      match s.trackPolyline with
      | some _ => [Op.removeTrackLine]
      | none => []
    let s1 : TrackingState := { s with selectedVehicleId := some vehicleId, trackPolyline := none }
    match fetchResult with
    | none => (s1, removeOps)
    | some points =>
        if points.length < 2 then (s1, removeOps)
        else
          let pts := points.map (fun p => (p.lat, p.lng))
          ({ s1 with trackPolyline := some { points := pts, onMap := true } },
           removeOps ++ [Op.addTrackLine pts])

/-- clearTrack() of useVehicleTracking.ts. -/
def clearTrack (s : TrackingState) : TrackingState × List Op :=
  let removeOps : List Op :=
    match s.trackPolyline with
    | some _ => [Op.removeTrackLine]
    | none => []
  ({ s with trackPolyline := none, selectedVehicleId := none }, removeOps)

/-- stop() of useVehicleTracking.ts: cancel the timer, detach the track
line from the map (the variable is not cleared), detach the layer group
when the map handle is non-null, clear the layer group and the registry.
Note that stop neither nulls the map handle nor touches `visible`. -/
def stop (mapPresent : Bool) (s : TrackingState) : TrackingState :=
  { s with timerActive := false
           trackPolyline := s.trackPolyline.map (fun t => { t with onMap := false })
           mapHasLayer := if mapPresent then false else s.mapHasLayer
           markerLayer := []
           markerMap := [] }

/-- fetchRegisteredVehicles() of useVehicleTracking.ts: replace the
reference list only when the fetch succeeds with an ok response. -/
def fetchRegisteredVehicles (fetchResult : Option (List RegisteredVehicle))
    (s : TrackingState) : TrackingState :=
  match fetchResult with
  | some rs => { s with registeredVehicles := rs }
  | none => s

/-- Last occurrence of a given vehicleId in a snapshot, in list order. -/
def lastOcc (vid : String) : List VehiclePosition → Option VehiclePosition
  | [] => none
  | v :: rest =>
      match lastOcc vid rest with
      | some w => some w
      | none => if v.vehicleId = vid then some v else none

/-- An entry whose marker position and cached heading / speed / color all
agree with what the reconciler would render for position v. -/
def entrySynced (knownIds : List String) (v : VehiclePosition) (e : MarkerEntry) : Prop :=
  e.marker.latlng = (v.lat, v.lng) ∧
  e.heading = v.heading.getD 0 ∧
  e.speed = v.speed ∧
  e.color = vehicleColor knownIds v.vehicleId

instance (knownIds : List String) (v : VehiclePosition) (e : MarkerEntry) :
    Decidable (entrySynced knownIds v e) := by
  unfold entrySynced
  infer_instance

/-! ### Concrete sample data used by witnesses and counterexamples -/

/-- A sample position report for vehicle A, heading 0. -/
def posA : VehiclePosition :=
  { vehicleId := "A", lat := 1, lng := 1, speed := none, heading := some 0, time := "t0" }

/-- The same vehicle A with heading 90 only. -/
def posA90 : VehiclePosition :=
  { vehicleId := "A", lat := 1, lng := 1, speed := none, heading := some 90, time := "t0" }

/-- A sample position report for vehicle B. -/
def posB : VehiclePosition :=
  { vehicleId := "B", lat := 2, lng := 2, speed := some 5, heading := some 0, time := "t1" }

/-- The state right after useVehicleTracking() is constructed and start()
has armed the timer: empty registry, visible, nothing selected. -/
def initState : TrackingState :=
  { vehicles := []
    registeredVehicles := []
    selectedVehicleId := none
    visible := true
    markerMap := []
    markerLayer := []
    mapHasLayer := false
    trackPolyline := none
    timerActive := true }

/-- initState with the tracking layer toggled hidden. -/
def hiddenState : TrackingState := { initState with visible := false }

/-- initState with a two-vertex track polyline currently drawn. -/
def trackState : TrackingState :=
  { initState with trackPolyline := some { points := [(0, 0), (9, 9)], onMap := true } }

/-- An entry for posB whose cached speed alone is stale. -/
def entrySpeedStale : MarkerEntry :=
  { marker := createMarker posB 0 ("#757575")
    heading := 0
    speed := none
    color := "#757575" }

/-- An entry for posA90 whose cached heading alone is stale. -/
def entryHeadingStale : MarkerEntry :=
  { marker := createMarker posA90 0 ("#757575")
    heading := 0
    speed := none
    color := "#757575" }

/-- An entry fully in sync with posA. -/
def entryAllSame : MarkerEntry :=
  { marker := createMarker posA 0 ("#757575")
    heading := 0
    speed := none
    color := "#757575" }

/-- A registered-vehicle record for vehicle A. -/
def regA : RegisteredVehicle :=
  { id := 1, vehicleId := "A", name := "Truck A", type := none,
    description := none, createdAt := "t0" }

/-- initState with vehicle A registered. -/
def regState : TrackingState := { initState with registeredVehicles := [regA] }

/-! ### Registry lemmas -/

lemma lookupEntry_eq_none_iff (reg : Registry) (k : String) :
    lookupEntry reg k = none ↔ k ∉ reg.map Prod.fst := by
  induction reg with
  | nil => simp [lookupEntry]
  | cons p rest ih =>
      obtain ⟨k0, e0⟩ := p
      by_cases h : k0 = k
      · subst h
        simp [lookupEntry]
      · simp [lookupEntry, h, ih, Ne.symm h]

lemma lookupEntry_setEntry_self (reg : Registry) (k : String) (e : MarkerEntry) :
    lookupEntry (setEntry reg k e) k = some e := by
  induction reg with
  | nil => simp [setEntry, lookupEntry]
  | cons p rest ih =>
      obtain ⟨k0, e0⟩ := p
      by_cases h : k0 = k
      · simp [setEntry, h, lookupEntry]
      · simp [setEntry, h, lookupEntry, ih]

lemma lookupEntry_setEntry_ne (reg : Registry) (k k' : String) (e : MarkerEntry)
    (h : k ≠ k') :
    lookupEntry (setEntry reg k' e) k = lookupEntry reg k := by
  induction reg with
  | nil => simp [setEntry, lookupEntry, Ne.symm h]
  | cons p rest ih =>
      obtain ⟨k0, e0⟩ := p
      by_cases h0 : k0 = k'
      · subst h0
        simp [setEntry, lookupEntry, Ne.symm h, h]
      · simp [setEntry, h0, lookupEntry, ih]

lemma keys_setEntry_of_mem (reg : Registry) (k : String) (e e0 : MarkerEntry)
    (h : lookupEntry reg k = some e0) :
    (setEntry reg k e).map Prod.fst = reg.map Prod.fst := by
  induction reg with
  | nil => simp [lookupEntry] at h
  | cons p rest ih =>
      obtain ⟨k0, e1⟩ := p
      by_cases h0 : k0 = k
      · subst h0
        simp [setEntry]
      · simp [lookupEntry, h0] at h
        simp [setEntry, h0, ih h]

lemma setEntry_lookup_self (reg : Registry) (k : String) (e : MarkerEntry)
    (h : lookupEntry reg k = some e) :
    setEntry reg k e = reg := by
  induction reg with
  | nil => simp [lookupEntry] at h
  | cons p rest ih =>
      obtain ⟨k0, e1⟩ := p
      by_cases h0 : k0 = k
      · subst h0
        simp [lookupEntry] at h
        simp [setEntry, h]
      · simp [lookupEntry, h0] at h
        simp [setEntry, h0, ih h]

lemma lookupEntry_append_ne (reg : Registry) (k k' : String) (e : MarkerEntry)
    (h : k ≠ k') :
    lookupEntry (reg ++ [(k', e)]) k = lookupEntry reg k := by
  induction reg with
  | nil => simp [lookupEntry, Ne.symm h]
  | cons p rest ih =>
      obtain ⟨k0, e0⟩ := p
      by_cases h0 : k0 = k
      · simp [lookupEntry, h0]
      · simp [lookupEntry, h0, ih]

lemma lookupEntry_append_self (reg : Registry) (k : String) (e : MarkerEntry)
    (h : lookupEntry reg k = none) :
    lookupEntry (reg ++ [(k, e)]) k = some e := by
  induction reg with
  | nil => simp [lookupEntry]
  | cons p rest ih =>
      obtain ⟨k0, e0⟩ := p
      by_cases h0 : k0 = k
      · subst h0
        simp [lookupEntry] at h
      · simp [lookupEntry, h0] at h ⊢
        exact ih h

/-! ### lastOcc lemmas -/

lemma lastOcc_eq_none_iff (vid : String) (data : List VehiclePosition) :
    lastOcc vid data = none ↔ vid ∉ data.map (fun v => v.vehicleId) := by
  induction data with
  | nil => simp [lastOcc]
  | cons v rest ih =>
      rw [lastOcc]
      cases hrest : lastOcc vid rest with
      | some w =>
          have hmem : vid ∈ rest.map (fun v => v.vehicleId) := by
            by_contra hc
            simp [ih.mpr hc] at hrest
          simp [hmem]
      | none =>
          by_cases hv : v.vehicleId = vid
          · simp [hv]
          · simp [hv, ih.mp hrest, Ne.symm hv]

lemma lastOcc_some (vid : String) (data : List VehiclePosition) (v : VehiclePosition)
    (h : lastOcc vid data = some v) :
    v.vehicleId = vid ∧ v ∈ data := by
  induction data with
  | nil => simp [lastOcc] at h
  | cons w rest ih =>
      rw [lastOcc] at h
      cases hrest : lastOcc vid rest with
      | some u =>
          rw [hrest] at h
          obtain ⟨h1, h2⟩ := ih (hrest.trans (by injection h with h; rw [h]))
          exact ⟨h1, List.mem_cons_of_mem _ h2⟩
      | none =>
          rw [hrest] at h
          by_cases hw : w.vehicleId = vid
          · rw [if_pos hw] at h
            injection h with h
            subst h
            exact ⟨hw, List.mem_cons_self _ _⟩
          · rw [if_neg hw] at h
            exact absurd h (by simp)

lemma lastOcc_isSome_of_mem (vid : String) (data : List VehiclePosition)
    (h : vid ∈ data.map (fun v => v.vehicleId)) :
    ∃ v, lastOcc vid data = some v := by
  cases hl : lastOcc vid data with
  | some v => exact ⟨v, rfl⟩
  | none => exact absurd h ((lastOcc_eq_none_iff vid data).mp hl)

lemma lastOcc_of_nodup (data : List VehiclePosition) (v : VehiclePosition)
    (hnd : (data.map (fun w => w.vehicleId)).Nodup) (hmem : v ∈ data) :
    lastOcc v.vehicleId data = some v := by
  induction data with
  | nil => simp at hmem
  | cons w rest ih =>
      simp only [List.map_cons, List.nodup_cons] at hnd
      rcases List.mem_cons.mp hmem with h | h
      · subst h
        have : lastOcc v.vehicleId rest = none :=
          (lastOcc_eq_none_iff _ _).mpr hnd.1
        rw [lastOcc, this, if_pos rfl]
      · have hr := ih hnd.2 h
        rw [lastOcc, hr]

/-! ### updateEntry lemmas -/

lemma updateEntry_synced_noop (kn : List String) (v : VehiclePosition) (e : MarkerEntry)
    (h : entrySynced kn v e) :
    updateEntry v (v.heading.getD 0) (vehicleColor kn v.vehicleId) e = (e, []) := by
  obtain ⟨m, eh, es, ec⟩ := e
  obtain ⟨hll, hh, hs, hc⟩ := h
  simp only at hll hh hs hc
  subst hh
  subst hs
  subst hc
  have hll1 : m.latlng.1 = v.lat := by rw [hll]
  have hll2 : m.latlng.2 = v.lng := by rw [hll]
  simp [updateEntry, hll1, hll2]

lemma updateEntry_result_synced (kn : List String) (v : VehiclePosition) (e : MarkerEntry) :
    entrySynced kn v (updateEntry v (v.heading.getD 0) (vehicleColor kn v.vehicleId) e).1 := by
  simp only [updateEntry, entrySynced]
  split_ifs <;> push_neg at * <;>
    refine ⟨?_, ?_, ?_, ?_⟩ <;> simp_all [Prod.ext_iff]

lemma updateEntry_ops (v : VehiclePosition) (heading : Int) (color : String) (e : MarkerEntry) :
    (updateEntry v heading color e).2 =
      (if e.marker.latlng.1 ≠ v.lat ∨ e.marker.latlng.2 ≠ v.lng then
        [Op.setLatLng v.vehicleId (v.lat, v.lng)] else []) ++
      (if e.heading ≠ heading ∨ e.color ≠ color then
        [Op.setIcon v.vehicleId (makeVehicleIcon heading color)] else []) ++
      (if e.heading ≠ heading ∨ e.speed ≠ v.speed then
        [Op.setPopupContent v.vehicleId (makeVehiclePopup v)] else []) := by
  simp [updateEntry]

/-! ### processVehicle lemmas -/

lemma processVehicle_some_eq (kn : List String) (v : VehiclePosition)
    (reg : Registry) (layer : List String) (e0 : MarkerEntry)
    (hl : lookupEntry reg v.vehicleId = some e0) :
    processVehicle kn v reg layer =
      { reg := setEntry reg v.vehicleId
          (updateEntry v (v.heading.getD 0) (vehicleColor kn v.vehicleId) e0).1
        layer := layer
        ops := (updateEntry v (v.heading.getD 0) (vehicleColor kn v.vehicleId) e0).2 } := by
  unfold processVehicle
  rw [hl]

lemma processVehicle_none_eq (kn : List String) (v : VehiclePosition)
    (reg : Registry) (layer : List String)
    (hl : lookupEntry reg v.vehicleId = none) :
    processVehicle kn v reg layer =
      { reg := reg ++ [(v.vehicleId,
          { marker := createMarker v (v.heading.getD 0) (vehicleColor kn v.vehicleId)
            heading := v.heading.getD 0
            speed := v.speed
            color := vehicleColor kn v.vehicleId })]
        layer := layer ++ [v.vehicleId]
        ops := [Op.addMarker v.vehicleId] } := by
  unfold processVehicle
  rw [hl]

lemma processVehicle_reg_some (kn : List String) (v : VehiclePosition)
    (reg : Registry) (layer : List String) (e0 : MarkerEntry)
    (hl : lookupEntry reg v.vehicleId = some e0) :
    (processVehicle kn v reg layer).reg =
      setEntry reg v.vehicleId
        (updateEntry v (v.heading.getD 0) (vehicleColor kn v.vehicleId) e0).1 := by
  rw [processVehicle_some_eq kn v reg layer e0 hl]

lemma processVehicle_reg_none (kn : List String) (v : VehiclePosition)
    (reg : Registry) (layer : List String)
    (hl : lookupEntry reg v.vehicleId = none) :
    (processVehicle kn v reg layer).reg =
      reg ++ [(v.vehicleId,
        { marker := createMarker v (v.heading.getD 0) (vehicleColor kn v.vehicleId)
          heading := v.heading.getD 0
          speed := v.speed
          color := vehicleColor kn v.vehicleId })] := by
  rw [processVehicle_none_eq kn v reg layer hl]

lemma processVehicle_self_synced (kn : List String) (v : VehiclePosition)
    (reg : Registry) (layer : List String) :
    ∃ e, lookupEntry (processVehicle kn v reg layer).reg v.vehicleId = some e ∧
      entrySynced kn v e := by
  cases hl : lookupEntry reg v.vehicleId with
  | some e0 =>
      rw [processVehicle_reg_some kn v reg layer e0 hl]
      exact ⟨_, lookupEntry_setEntry_self reg _ _, updateEntry_result_synced kn v e0⟩
  | none =>
      rw [processVehicle_reg_none kn v reg layer hl]
      refine ⟨_, lookupEntry_append_self reg _ _ hl, ?_⟩
      simp [entrySynced, createMarker, makeVehicleIcon]

lemma processVehicle_lookup_ne (kn : List String) (v : VehiclePosition)
    (reg : Registry) (layer : List String) (a : String) (h : a ≠ v.vehicleId) :
    lookupEntry (processVehicle kn v reg layer).reg a = lookupEntry reg a := by
  cases hl : lookupEntry reg v.vehicleId with
  | some e0 =>
      rw [processVehicle_reg_some kn v reg layer e0 hl]
      exact lookupEntry_setEntry_ne reg a v.vehicleId _ h
  | none =>
      rw [processVehicle_reg_none kn v reg layer hl]
      exact lookupEntry_append_ne reg a v.vehicleId _ h

lemma mem_keys_processVehicle (kn : List String) (v : VehiclePosition)
    (reg : Registry) (layer : List String) (a : String) :
    a ∈ (processVehicle kn v reg layer).reg.map Prod.fst ↔
      a ∈ reg.map Prod.fst ∨ a = v.vehicleId := by
  cases hl : lookupEntry reg v.vehicleId with
  | some e0 =>
      rw [processVehicle_reg_some kn v reg layer e0 hl]
      have hmem : v.vehicleId ∈ reg.map Prod.fst := by
        by_contra hc
        rw [(lookupEntry_eq_none_iff reg v.vehicleId).mpr hc] at hl
        cases hl
      rw [keys_setEntry_of_mem reg v.vehicleId _ e0 hl]
      constructor
      · exact Or.inl
      · rintro (h | h)
        · exact h
        · subst h
          exact hmem
  | none =>
      rw [processVehicle_reg_none kn v reg layer hl]
      simp

lemma nodup_keys_processVehicle (kn : List String) (v : VehiclePosition)
    (reg : Registry) (layer : List String)
    (h : (reg.map Prod.fst).Nodup) :
    ((processVehicle kn v reg layer).reg.map Prod.fst).Nodup := by
  cases hl : lookupEntry reg v.vehicleId with
  | some e0 =>
      rw [processVehicle_reg_some kn v reg layer e0 hl]
      simpa [keys_setEntry_of_mem reg v.vehicleId _ e0 hl] using h
  | none =>
      rw [processVehicle_reg_none kn v reg layer hl]
      have hmem : v.vehicleId ∉ reg.map Prod.fst :=
        (lookupEntry_eq_none_iff reg v.vehicleId).mp hl
      simp [List.nodup_append, h, hmem]

/-! ### processAll lemmas -/

lemma mem_keys_processAll (kn : List String) (data : List VehiclePosition) :
    ∀ (reg : Registry) (layer : List String) (a : String),
      a ∈ (processAll kn data reg layer).reg.map Prod.fst ↔
        a ∈ reg.map Prod.fst ∨ a ∈ data.map (fun v => v.vehicleId) := by
  induction data with
  | nil => intro reg layer a; simp [processAll]
  | cons v rest ih =>
      intro reg layer a
      rw [processAll]
      rw [ih (processVehicle kn v reg layer).reg (processVehicle kn v reg layer).layer a]
      rw [mem_keys_processVehicle]
      simp [or_assoc, or_comm, or_left_comm]

lemma nodup_keys_processAll (kn : List String) (data : List VehiclePosition) :
    ∀ (reg : Registry) (layer : List String),
      (reg.map Prod.fst).Nodup →
      ((processAll kn data reg layer).reg.map Prod.fst).Nodup := by
  induction data with
  | nil => intro reg layer h; simpa [processAll] using h
  | cons v rest ih =>
      intro reg layer h
      rw [processAll]
      exact ih _ _ (nodup_keys_processVehicle kn v reg layer h)

lemma processAll_lookup_not_mem (kn : List String) (data : List VehiclePosition) :
    ∀ (reg : Registry) (layer : List String) (a : String),
      a ∉ data.map (fun v => v.vehicleId) →
      lookupEntry (processAll kn data reg layer).reg a = lookupEntry reg a := by
  induction data with
  | nil => intro reg layer a _; simp [processAll]
  | cons v rest ih =>
      intro reg layer a ha
      simp only [List.map_cons, List.mem_cons, not_or] at ha
      rw [processAll]
      rw [ih _ _ a ha.2]
      exact processVehicle_lookup_ne kn v reg layer a ha.1

lemma processAll_lastOcc_synced (kn : List String) (data : List VehiclePosition) :
    ∀ (reg : Registry) (layer : List String) (vid : String) (v : VehiclePosition),
      lastOcc vid data = some v →
      ∃ e, lookupEntry (processAll kn data reg layer).reg vid = some e ∧
        entrySynced kn v e := by
  induction data with
  | nil => intro reg layer vid v h; simp [lastOcc] at h
  | cons w rest ih =>
      intro reg layer vid v h
      rw [lastOcc] at h
      cases hrest : lastOcc vid rest with
      | some u =>
          rw [hrest] at h
          obtain rfl := Option.some.inj h
          rw [processAll]
          exact ih _ _ vid u hrest
      | none =>
          rw [hrest] at h
          by_cases hw : w.vehicleId = vid
          · rw [if_pos hw] at h
            obtain rfl := Option.some.inj h
            rw [processAll]
            have hnot : vid ∉ rest.map (fun x => x.vehicleId) :=
              (lastOcc_eq_none_iff vid rest).mp hrest
            rw [processAll_lookup_not_mem kn rest _ _ vid hnot]
            rw [← hw]
            exact processVehicle_self_synced kn w reg layer
          · rw [if_neg hw] at h
            cases h

lemma processAll_noop (kn : List String) (data : List VehiclePosition) :
    ∀ (reg : Registry) (layer : List String),
      (∀ v ∈ data, ∃ e, lookupEntry reg v.vehicleId = some e ∧ entrySynced kn v e) →
      processAll kn data reg layer = { reg := reg, layer := layer, ops := [] } := by
  induction data with
  | nil => intro reg layer _; rw [processAll]
  | cons v rest ih =>
      intro reg layer h
      obtain ⟨e, he, hsync⟩ := h v (List.mem_cons_self v rest)
      have hstep : processVehicle kn v reg layer =
          { reg := reg, layer := layer, ops := [] } := by
        rw [processVehicle_some_eq kn v reg layer e he]
        rw [updateEntry_synced_noop kn v e hsync]
        rw [setEntry_lookup_self reg v.vehicleId e he]
      rw [processAll, hstep]
      rw [ih reg layer (fun w hw => h w (List.mem_cons_of_mem v hw))]
      rfl

/-! ### removeStale lemmas -/

lemma removeStale_reg_sublist (seen : List String) :
    ∀ (reg : Registry) (layer : List String),
      (removeStale seen reg layer).reg.Sublist reg := by
  intro reg
  induction reg with
  | nil => intro layer; simp [removeStale]
  | cons p rest ih =>
      intro layer
      obtain ⟨k, e⟩ := p
      rw [removeStale]
      by_cases hk : k ∈ seen
      · simp only [if_pos hk]
        exact List.Sublist.cons₂ _ (ih layer)
      · simp only [if_neg hk]
        exact List.Sublist.cons _ (ih (layer.erase k))

lemma mem_keys_removeStale (seen : List String) :
    ∀ (reg : Registry) (layer : List String) (a : String),
      a ∈ (removeStale seen reg layer).reg.map Prod.fst ↔
        a ∈ reg.map Prod.fst ∧ a ∈ seen := by
  intro reg
  induction reg with
  | nil => intro layer a; simp [removeStale]
  | cons p rest ih =>
      intro layer a
      obtain ⟨k, e⟩ := p
      rw [removeStale]
      by_cases hk : k ∈ seen
      · simp only [if_pos hk]
        by_cases hak : a = k
        · subst hak
          simp [hk, ih]
        · simp [hak, ih layer a]
      · simp only [if_neg hk]
        by_cases hak : a = k
        · subst hak
          simp [hk, ih]
        · simp [hak, ih (layer.erase k) a]

lemma lookup_removeStale_mem (seen : List String) :
    ∀ (reg : Registry) (layer : List String) (a : String), a ∈ seen →
      lookupEntry (removeStale seen reg layer).reg a = lookupEntry reg a := by
  intro reg
  induction reg with
  | nil => intro layer a _; simp [removeStale]
  | cons p rest ih =>
      intro layer a ha
      obtain ⟨k, e⟩ := p
      rw [removeStale]
      by_cases hk : k ∈ seen
      · simp only [if_pos hk]
        by_cases hak : k = a
        · subst hak
          simp [lookupEntry]
        · simp [lookupEntry, hak, ih layer a ha]
      · simp only [if_neg hk]
        have hak : k ≠ a := fun hc => hk (hc ▸ ha)
        simp [lookupEntry, hak, ih (layer.erase k) a ha]

lemma removeStale_noop (seen : List String) :
    ∀ (reg : Registry) (layer : List String),
      (∀ p ∈ reg, p.1 ∈ seen) →
      removeStale seen reg layer = { reg := reg, layer := layer, ops := [] } := by
  intro reg
  induction reg with
  | nil => intro layer _; rw [removeStale]
  | cons p rest ih =>
      intro layer h
      obtain ⟨k, e⟩ := p
      have hk : k ∈ seen := h (k, e) (List.mem_cons_self _ _)
      rw [removeStale]
      simp only [if_pos hk]
      rw [ih layer (fun q hq => h q (List.mem_cons_of_mem _ hq))]

/-! ### reconcile / refresh lemmas -/

lemma refresh_visible (s : TrackingState) (data : List VehiclePosition)
    (h : s.visible = true) :
    refresh true (some data) s = reconcile data { s with vehicles := data } := by
  simp [refresh, h]

lemma reconcile_markerMap (data : List VehiclePosition) (s : TrackingState) :
    (reconcile data s).1.markerMap =
      (removeStale (data.map (fun v => v.vehicleId))
        (processAll (s.registeredVehicles.map (fun r => r.vehicleId)) data s.markerMap s.markerLayer).reg
        (processAll (s.registeredVehicles.map (fun r => r.vehicleId)) data s.markerMap s.markerLayer).layer).reg := by
  simp [reconcile]

lemma mem_keys_reconcile (data : List VehiclePosition) (s : TrackingState) (a : String) :
    a ∈ (reconcile data s).1.markerMap.map Prod.fst ↔
      a ∈ data.map (fun v => v.vehicleId) := by
  rw [reconcile_markerMap]
  rw [mem_keys_removeStale]
  rw [mem_keys_processAll]
  tauto

lemma reconcile_lookup_lastOcc (data : List VehiclePosition) (s : TrackingState)
    (vid : String) (v : VehiclePosition) (h : lastOcc vid data = some v) :
    ∃ e, lookupEntry (reconcile data s).1.markerMap vid = some e ∧
      entrySynced (s.registeredVehicles.map (fun r => r.vehicleId)) v e := by
  have hseen : vid ∈ data.map (fun w => w.vehicleId) := by
    obtain ⟨hid, hmem⟩ := lastOcc_some vid data v h
    exact List.mem_map.mpr ⟨v, hmem, hid⟩
  rw [reconcile_markerMap]
  rw [lookup_removeStale_mem _ _ _ vid hseen]
  exact processAll_lastOcc_synced _ data _ _ vid v h

lemma reconcile_noop (data : List VehiclePosition) (s : TrackingState)
    (hsync : ∀ v ∈ data, ∃ e, lookupEntry s.markerMap v.vehicleId = some e ∧
      entrySynced (s.registeredVehicles.map (fun r => r.vehicleId)) v e)
    (hsub : ∀ p ∈ s.markerMap, p.1 ∈ data.map (fun v => v.vehicleId))
    (hmhl : s.mapHasLayer = true) :
    reconcile data s = (s, []) := by
  obtain ⟨veh, rv, sel, vis, mm, ml, mhl, tp, ta⟩ := s
  have hmhl2 : mhl = true := hmhl
  subst hmhl2
  have h1 := processAll_noop (rv.map (fun r => r.vehicleId)) data mm ml hsync
  have h2 := removeStale_noop (data.map (fun v => v.vehicleId)) mm ml hsub
  simp [reconcile, h1, h2]

/-! ## Claim theorems -/

/-- C1: for every snapshot processed by refresh with the map handle
non-null, a successful fetch and visibility on, the registry key set
after the reconcile pass equals exactly the set of vehicleIds of the
snapshot; in particular the empty snapshot empties the registry. -/
theorem refresh_keyset_eq_snapshot_ids (s : TrackingState)
    (data : List VehiclePosition) (hvis : s.visible = true) :
    (∀ vid, vid ∈ (refresh true (some data) s).1.markerMap.map Prod.fst ↔
      vid ∈ data.map (fun v => v.vehicleId)) ∧
    (data = [] → (refresh true (some data) s).1.markerMap = []) := by
  rw [refresh_visible s data hvis]
  refine ⟨fun vid => mem_keys_reconcile data _ vid, fun hd => ?_⟩
  subst hd
  have h : ∀ vid, vid ∉ (reconcile [] { s with vehicles := [] }).1.markerMap.map Prod.fst := by
    intro vid hc
    simpa using (mem_keys_reconcile [] { s with vehicles := [] } vid).mp hc
  have hmap : (reconcile [] { s with vehicles := [] }).1.markerMap.map Prod.fst = [] :=
    List.eq_nil_iff_forall_not_mem.mpr h
  exact List.map_eq_nil_iff.mp hmap

/-- C1 witness: refresh on the singleton snapshot [posA] from the initial
state puts exactly the key A into the registry. -/
theorem refresh_keyset_eq_snapshot_ids_witness :
    initState.visible = true ∧
    (("A" : String) ∈ (refresh true (some [posA]) initState).1.markerMap.map Prod.fst ↔
      ("A" : String) ∈ [posA].map (fun v => v.vehicleId)) :=
  ⟨by decide, (refresh_keyset_eq_snapshot_ids initState [posA] (by decide)).1 ("A")⟩

/-- C5: a failed snapshot fetch (thrown network error or a non-ok HTTP
response, both modelled by the fetch outcome none) leaves the whole
state, in particular vehicles and the marker registry, untouched and
performs no map operation. -/
theorem refresh_failed_fetch_noop (s : TrackingState) :
    refresh true none s = (s, []) := by
  simp [refresh]

/-- C6: with the tracking layer hidden, a successful refresh stores the
snapshot into vehicles but changes nothing else and performs no marker or
layer operation. -/
theorem refresh_hidden_stores_snapshot_only (s : TrackingState)
    (data : List VehiclePosition) (hvis : s.visible = false) :
    refresh true (some data) s = ({ s with vehicles := data }, []) := by
  simp [refresh, hvis]

/-- C6 witness: refresh while hidden stores [posA] and does nothing else. -/
theorem refresh_hidden_stores_snapshot_only_witness :
    hiddenState.visible = false ∧
    refresh true (some [posA]) hiddenState = ({ hiddenState with vehicles := [posA] }, []) :=
  ⟨by decide, refresh_hidden_stores_snapshot_only hiddenState [posA] (by decide)⟩

/-- C2 (amended): feeding the same snapshot twice in a row, with the
registered-vehicle set unchanged, produces zero operations of any kind on
the second pass and leaves the whole state unchanged, provided the
snapshot contains no duplicate vehicleIds.  (For a snapshot with two
positions carrying the same vehicleId and different data the claim as
stated fails, see the counterexample.) -/
theorem refresh_same_snapshot_second_pass_noop (s : TrackingState)
    (data : List VehiclePosition) (hvis : s.visible = true)
    (hnd : (data.map (fun v => v.vehicleId)).Nodup) :
    refresh true (some data) (refresh true (some data) s).1 =
      ((refresh true (some data) s).1, []) := by
  rw [refresh_visible s data hvis]
  have hvis1 : (reconcile data { s with vehicles := data }).1.visible = true := by
    simpa [reconcile] using hvis
  rw [refresh_visible _ data hvis1]
  have hveh : (reconcile data { s with vehicles := data }).1.vehicles = data := by
    simp [reconcile]
  have hupd : ∀ X : TrackingState, X.vehicles = data →
      ({ X with vehicles := data } : TrackingState) = X := by
    intro X hX
    rw [← hX]
  rw [hupd _ hveh]
  apply reconcile_noop
  · intro v hv
    have hlast := lastOcc_of_nodup data v hnd hv
    have hres := reconcile_lookup_lastOcc data { s with vehicles := data } v.vehicleId v hlast
    have hrv : (reconcile data { s with vehicles := data }).1.registeredVehicles
        = s.registeredVehicles := by simp [reconcile]
    rw [hrv]
    simpa using hres
  · intro p hp
    exact (mem_keys_reconcile data _ p.1).mp (List.mem_map_of_mem Prod.fst hp)
  · simp [reconcile]

/-- C2 witness: a duplicate-free two-vehicle snapshot fed twice from the
initial state makes the second pass a strict no-op. -/
theorem refresh_same_snapshot_second_pass_noop_witness :
    initState.visible = true ∧
    (([posA, posB].map (fun v => v.vehicleId)).Nodup) ∧
    refresh true (some [posA, posB]) (refresh true (some [posA, posB]) initState).1 =
      ((refresh true (some [posA, posB]) initState).1, []) :=
  ⟨by decide, by decide,
   refresh_same_snapshot_second_pass_noop initState [posA, posB] (by decide) (by decide)⟩

/-- C2 counterexample: a snapshot that reports vehicle A twice with two
different headings yields a setIcon call on the second pass as well, so
the claim quantified over every snapshot fails. -/
theorem refresh_same_snapshot_counterexample :
    Op.setIcon ("A") (makeVehicleIcon 0 ("#757575")) ∈
      (refresh true (some [posA, posA90]) (refresh true (some [posA, posA90]) initState).1).2 := by
  decide

/-- C3: for an existing entry and an incoming position of the same
vehicle, a speed-only change regenerates the popup and updates the cached
speed but never the icon; a heading-only change regenerates both the icon
and the popup and updates both caches; no change in heading, color, speed
or coordinates regenerates neither and leaves the entry untouched. -/
theorem updateEntry_partial_change_minimality (kn : List String)
    (v : VehiclePosition) (e : MarkerEntry) :
    (e.marker.latlng = (v.lat, v.lng) →
     e.heading = v.heading.getD 0 →
     e.color = vehicleColor kn v.vehicleId →
     e.speed ≠ v.speed →
     (updateEntry v (v.heading.getD 0) (vehicleColor kn v.vehicleId) e).2 =
        [Op.setPopupContent v.vehicleId (makeVehiclePopup v)] ∧
     (updateEntry v (v.heading.getD 0) (vehicleColor kn v.vehicleId) e).1.heading = e.heading ∧
     (updateEntry v (v.heading.getD 0) (vehicleColor kn v.vehicleId) e).1.color = e.color ∧
     (updateEntry v (v.heading.getD 0) (vehicleColor kn v.vehicleId) e).1.speed = v.speed) ∧
    (e.marker.latlng = (v.lat, v.lng) →
     e.heading ≠ v.heading.getD 0 →
     e.color = vehicleColor kn v.vehicleId →
     e.speed = v.speed →
     (updateEntry v (v.heading.getD 0) (vehicleColor kn v.vehicleId) e).2 =
        [Op.setIcon v.vehicleId (makeVehicleIcon (v.heading.getD 0) (vehicleColor kn v.vehicleId)),
         Op.setPopupContent v.vehicleId (makeVehiclePopup v)] ∧
     (updateEntry v (v.heading.getD 0) (vehicleColor kn v.vehicleId) e).1.heading = v.heading.getD 0 ∧
     (updateEntry v (v.heading.getD 0) (vehicleColor kn v.vehicleId) e).1.color = vehicleColor kn v.vehicleId ∧
     (updateEntry v (v.heading.getD 0) (vehicleColor kn v.vehicleId) e).1.speed = v.speed) ∧
    (e.marker.latlng = (v.lat, v.lng) →
     e.heading = v.heading.getD 0 →
     e.color = vehicleColor kn v.vehicleId →
     e.speed = v.speed →
     updateEntry v (v.heading.getD 0) (vehicleColor kn v.vehicleId) e = (e, [])) := by
  refine ⟨?_, ?_, ?_⟩
  · intro hll hh hc hs
    have hll1 : e.marker.latlng.1 = v.lat := by rw [hll]
    have hll2 : e.marker.latlng.2 = v.lng := by rw [hll]
    simp [updateEntry, hll1, hll2, hh, hc, hs]
  · intro hll hh hc hs
    have hll1 : e.marker.latlng.1 = v.lat := by rw [hll]
    have hll2 : e.marker.latlng.2 = v.lng := by rw [hll]
    simp [updateEntry, hll1, hll2, hh, hc, hs]
  · intro hll hh hc hs
    exact updateEntry_synced_noop kn v e ⟨hll, hh, hs, hc⟩

/-- C3 witness: the three cases evaluated on concrete entries, with an
empty registered list so the colour is the neutral one throughout. -/
theorem updateEntry_partial_change_minimality_witness :
    ((updateEntry posB (posB.heading.getD 0) (vehicleColor [] posB.vehicleId) entrySpeedStale).2 =
        [Op.setPopupContent posB.vehicleId (makeVehiclePopup posB)] ∧
     (updateEntry posB (posB.heading.getD 0) (vehicleColor [] posB.vehicleId) entrySpeedStale).1.heading = entrySpeedStale.heading ∧
     (updateEntry posB (posB.heading.getD 0) (vehicleColor [] posB.vehicleId) entrySpeedStale).1.color = entrySpeedStale.color ∧
     (updateEntry posB (posB.heading.getD 0) (vehicleColor [] posB.vehicleId) entrySpeedStale).1.speed = posB.speed) ∧
    ((updateEntry posA90 (posA90.heading.getD 0) (vehicleColor [] posA90.vehicleId) entryHeadingStale).2 =
        [Op.setIcon posA90.vehicleId (makeVehicleIcon (posA90.heading.getD 0) (vehicleColor [] posA90.vehicleId)),
         Op.setPopupContent posA90.vehicleId (makeVehiclePopup posA90)] ∧
     (updateEntry posA90 (posA90.heading.getD 0) (vehicleColor [] posA90.vehicleId) entryHeadingStale).1.heading = posA90.heading.getD 0 ∧
     (updateEntry posA90 (posA90.heading.getD 0) (vehicleColor [] posA90.vehicleId) entryHeadingStale).1.color = vehicleColor [] posA90.vehicleId ∧
     (updateEntry posA90 (posA90.heading.getD 0) (vehicleColor [] posA90.vehicleId) entryHeadingStale).1.speed = posA90.speed) ∧
    (updateEntry posA (posA.heading.getD 0) (vehicleColor [] posA.vehicleId) entryAllSame = (entryAllSame, [])) :=
  ⟨(updateEntry_partial_change_minimality [] posB entrySpeedStale).1
      (by decide) (by decide) (by decide) (by decide),
   (updateEntry_partial_change_minimality [] posA90 entryHeadingStale).2.1
      (by decide) (by decide) (by decide) (by decide),
   (updateEntry_partial_change_minimality [] posA entryAllSame).2.2
      (by decide) (by decide) (by decide) (by decide)⟩

/-- C4: evaluation at the failing input.  The claim that a reconcile
invoked after stop() never runs fails on the code: refresh captures the
map handle before awaiting the fetch and afterwards checks neither the
timer nor any stopped flag, so an in-flight fetch that resolves after
stop() runs the full reconcile and repopulates the registry and the
layer group. -/
theorem refresh_after_stop_mutates :
    (refresh true (some [posA]) (stop true initState)).1.markerMap ≠ [] ∧
    Op.addMarker ("A") ∈ (refresh true (some [posA]) (stop true initState)).2 := by
  decide

/-- C7: with a non-null map handle, selectVehicle draws no polyline when
the history fetch fails or returns fewer than two points, and with n
large or equal to 2 points it draws a polyline with exactly one vertex per
point in order, after first removing any previously drawn track line (the
single trackPolyline slot makes at most one track visible at a time). -/
theorem selectVehicle_track_rule (s : TrackingState) (vid : String)
    (points : List VehiclePosition) :
    ((selectVehicle true none vid s).1.trackPolyline = none) ∧
    (points.length < 2 → (selectVehicle true (some points) vid s).1.trackPolyline = none) ∧
    (2 ≤ points.length →
      (selectVehicle true (some points) vid s).1.trackPolyline =
        some { points := points.map (fun p => (p.lat, p.lng)), onMap := true } ∧
      (points.map (fun p => (p.lat, p.lng))).length = points.length) ∧
    (2 ≤ points.length → ∀ t, s.trackPolyline = some t →
      (selectVehicle true (some points) vid s).2 =
        [Op.removeTrackLine, Op.addTrackLine (points.map (fun p => (p.lat, p.lng)))]) := by
  refine ⟨?_, ?_, ?_, ?_⟩
  · cases htp : s.trackPolyline <;> simp [selectVehicle, htp]
  · intro h
    cases htp : s.trackPolyline <;> simp [selectVehicle, htp, h]
  · intro h
    have h2 : ¬points.length < 2 := Nat.not_lt.mpr h
    cases htp : s.trackPolyline <;> simp [selectVehicle, htp, h2]
  · intro h t ht
    have h2 : ¬points.length < 2 := Nat.not_lt.mpr h
    simp [selectVehicle, ht, h2]

/-- C7 witness: from a state with an old two-vertex track drawn, a
one-point history draws nothing and a two-point history draws a
two-vertex polyline after removing the old line. -/
theorem selectVehicle_track_rule_witness :
    ((selectVehicle true (some [posA]) ("A") trackState).1.trackPolyline = none) ∧
    ((selectVehicle true (some [posA, posB]) ("A") trackState).1.trackPolyline =
      some { points := [posA, posB].map (fun p => (p.lat, p.lng)), onMap := true }) ∧
    ((selectVehicle true (some [posA, posB]) ("A") trackState).2 =
      [Op.removeTrackLine, Op.addTrackLine ([posA, posB].map (fun p => (p.lat, p.lng)))]) :=
  ⟨(selectVehicle_track_rule trackState ("A") [posA]).2.1 (by decide),
   ((selectVehicle_track_rule trackState ("A") [posA, posB]).2.2.1 (by decide)).1,
   (selectVehicle_track_rule trackState ("A") [posA, posB]).2.2.2 (by decide)
     ({ points := [(0, 0), (9, 9)], onMap := true }) (by decide)⟩

/-- C8: the marker colour is the accent colour exactly when the
vehicleId occurs in the registered list and the neutral colour otherwise;
after a visible refresh every snapshot vehicle has an entry cached with
that colour regardless of report order; and a cached colour that differs
from the current classification forces a setIcon carrying the newly
classified colour on the next update of that entry. -/
theorem vehicle_color_classification :
    (∀ (kn : List String) (vid : String), vehicleColor kn vid = "#E65100" ↔ vid ∈ kn) ∧
    (∀ (kn : List String) (vid : String), vid ∉ kn → vehicleColor kn vid = "#757575") ∧
    (∀ (s : TrackingState) (data : List VehiclePosition) (vid : String),
      s.visible = true → vid ∈ data.map (fun v => v.vehicleId) →
      ∃ e, lookupEntry (refresh true (some data) s).1.markerMap vid = some e ∧
        e.color = vehicleColor (s.registeredVehicles.map (fun r => r.vehicleId)) vid) ∧
    (∀ (kn : List String) (v : VehiclePosition) (e : MarkerEntry),
      e.color ≠ vehicleColor kn v.vehicleId →
      Op.setIcon v.vehicleId (makeVehicleIcon (v.heading.getD 0) (vehicleColor kn v.vehicleId)) ∈
        (updateEntry v (v.heading.getD 0) (vehicleColor kn v.vehicleId) e).2) := by
  refine ⟨?_, ?_, ?_, ?_⟩
  · intro kn vid
    by_cases h : vid ∈ kn
    · simp [vehicleColor, h]
    · simp [vehicleColor, h]
  · intro kn vid h
    simp [vehicleColor, h]
  · intro s data vid hvis hmem
    rw [refresh_visible s data hvis]
    obtain ⟨v, hv⟩ := lastOcc_isSome_of_mem vid data hmem
    obtain ⟨e, he, hsync⟩ := reconcile_lookup_lastOcc data { s with vehicles := data } vid v hv
    refine ⟨e, he, ?_⟩
    have hid := (lastOcc_some vid data v hv).1
    rw [hsync.2.2.2, hid]
  · intro kn v e h
    rw [updateEntry_ops]
    simp [h]

/-- C8 witness: with vehicle A registered, a refresh caches the accent
colour for A, and updating an entry cached with the neutral colour emits
a setIcon with the accent colour. -/
theorem vehicle_color_classification_witness :
    (∃ e, lookupEntry (refresh true (some [posA]) regState).1.markerMap ("A") = some e ∧
      e.color = vehicleColor (regState.registeredVehicles.map (fun r => r.vehicleId)) ("A")) ∧
    (Op.setIcon posA.vehicleId
        (makeVehicleIcon (posA.heading.getD 0) (vehicleColor (["A"]) posA.vehicleId)) ∈
      (updateEntry posA (posA.heading.getD 0) (vehicleColor (["A"]) posA.vehicleId) entryAllSame).2) :=
  ⟨(vehicle_color_classification).2.2.1 regState [posA] ("A") (by decide) (by decide),
   (vehicle_color_classification).2.2.2 (["A"]) posA entryAllSame (by decide)⟩

/-- C9: even when a snapshot reports the same vehicleId several times,
refresh keeps exactly one registry entry per id (no duplicate keys), the
key set equals the de-duplicated id set of the snapshot, and the
surviving entry reflects the last occurrence in snapshot order (position,
cached heading, speed and colour). -/
theorem refresh_duplicate_ids_single_entry (s : TrackingState)
    (data : List VehiclePosition) (hvis : s.visible = true)
    (hnd : (s.markerMap.map Prod.fst).Nodup) :
    ((refresh true (some data) s).1.markerMap.map Prod.fst).Nodup ∧
    (∀ vid, vid ∈ (refresh true (some data) s).1.markerMap.map Prod.fst ↔
      vid ∈ data.map (fun v => v.vehicleId)) ∧
    (∀ vid v, lastOcc vid data = some v →
      ∃ e, lookupEntry (refresh true (some data) s).1.markerMap vid = some e ∧
        entrySynced (s.registeredVehicles.map (fun r => r.vehicleId)) v e) := by
  rw [refresh_visible s data hvis]
  refine ⟨?_, fun vid => mem_keys_reconcile data _ vid, ?_⟩
  · rw [reconcile_markerMap]
    have h1 := nodup_keys_processAll
      (({ s with vehicles := data } : TrackingState).registeredVehicles.map (fun r => r.vehicleId))
      data ({ s with vehicles := data } : TrackingState).markerMap
      ({ s with vehicles := data } : TrackingState).markerLayer hnd
    exact h1.sublist ((removeStale_reg_sublist _ _ _).map Prod.fst)
  · intro vid v hv
    have hres := reconcile_lookup_lastOcc data { s with vehicles := data } vid v hv
    simpa using hres

/-- C9 witness: the duplicated snapshot [posA, posA90] yields a single
registry entry for A whose caches match the later report posA90. -/
theorem refresh_duplicate_ids_single_entry_witness :
    initState.visible = true ∧
    (initState.markerMap.map Prod.fst).Nodup ∧
    (∃ e, lookupEntry (refresh true (some [posA, posA90]) initState).1.markerMap ("A") = some e ∧
      entrySynced (initState.registeredVehicles.map (fun r => r.vehicleId)) posA90 e) :=
  ⟨by decide, by decide,
   (refresh_duplicate_ids_single_entry initState [posA, posA90] (by decide) (by decide)).2.2
     ("A") posA90 (by decide)⟩

/-- C10: selectVehicle commits its mutations before the fetch and never
rolls them back: on a failed fetch or a history shorter than two points
the selection is the newly selected id and the previously drawn track
stays removed. -/
theorem selectVehicle_not_atomic_on_error (s : TrackingState) (vid : String)
    (points : List VehiclePosition) :
    ((selectVehicle true none vid s).1.selectedVehicleId = some vid ∧
     (selectVehicle true none vid s).1.trackPolyline = none) ∧
    (points.length < 2 →
      (selectVehicle true (some points) vid s).1.selectedVehicleId = some vid ∧
      (selectVehicle true (some points) vid s).1.trackPolyline = none) := by
  refine ⟨?_, ?_⟩
  · cases htp : s.trackPolyline <;> simp [selectVehicle, htp]
  · intro h
    cases htp : s.trackPolyline <;> simp [selectVehicle, htp, h]

/-- C10 witness: selecting B from a state with a drawn track and getting
a one-point history keeps the selection on B with the old track removed. -/
theorem selectVehicle_not_atomic_on_error_witness :
    ([posA].length < 2) ∧
    ((selectVehicle true (some [posA]) ("B") trackState).1.selectedVehicleId = some ("B") ∧
     (selectVehicle true (some [posA]) ("B") trackState).1.trackPolyline = none) :=
  ⟨by decide,
   (selectVehicle_not_atomic_on_error trackState ("B") [posA]).2 (by decide)⟩

end VehicleTracking
